import Mathlib

/-!
Verification of the video search-and-upload bot (`dowloader bot/main.py`)
against its natural-language specification.

The Python program is shallowly embedded: pure computations become Lean
functions over `Nat`/`List`/`String`; every network- or filesystem-facing
collaborator (selenium, instaloader, `requests`, the OS) is an explicit
environment argument supplying the outcome the collaborator would have
produced; exceptions become `Except`/`Option` values.  Machine integers do
not occur in the Python source (Python ints are unbounded); the 32-bit
arithmetic inside SHA-256 is modelled with explicit `% 2^32`.
-/

namespace VideoBot

/-! ## SHA-256 (model of `hashlib.sha256`)

`hashlib` is an external library; its documented contract is that `update`
absorbs bytes (feeding the data in any chunking is equivalent to feeding the
concatenation) and `hexdigest` returns the SHA-256 digest of everything
absorbed, as a lowercase hex string.  We implement SHA-256 (FIPS 180-4)
executably over byte lists so the digest side is concrete, and model the
incremental hash object as the list of absorbed bytes. -/

/-- Truncation to a 32-bit word. -/
def w32 (x : Nat) : Nat := x % 4294967296

/-- 32-bit modular addition. -/
def add32 (a b : Nat) : Nat := (a + b) % 4294967296

/-- Right rotation of a 32-bit word by `n` places. -/
def rotr32 (n x : Nat) : Nat := w32 ((x >>> n) ||| (x <<< (32 - n)))

/-- Bitwise complement within 32 bits. -/
def not32 (x : Nat) : Nat := x ^^^ 4294967295

/-- SHA-256 `Ch` function. -/
def shaCh (x y z : Nat) : Nat := (x &&& y) ^^^ (not32 x &&& z)

/-- SHA-256 `Maj` function. -/
def shaMaj (x y z : Nat) : Nat := (x &&& y) ^^^ (x &&& z) ^^^ (y &&& z)

/-- SHA-256 big Sigma-0. -/
def bigSigma0 (x : Nat) : Nat := rotr32 2 x ^^^ rotr32 13 x ^^^ rotr32 22 x

/-- SHA-256 big Sigma-1. -/
def bigSigma1 (x : Nat) : Nat := rotr32 6 x ^^^ rotr32 11 x ^^^ rotr32 25 x

/-- SHA-256 small sigma-0. -/
def smallSigma0 (x : Nat) : Nat := rotr32 7 x ^^^ rotr32 18 x ^^^ (x >>> 3)

/-- SHA-256 small sigma-1. -/
def smallSigma1 (x : Nat) : Nat := rotr32 17 x ^^^ rotr32 19 x ^^^ (x >>> 10)

/-- The 64 SHA-256 round constants (FIPS 180-4 §4.2.2, written in
decimal). -/
def shaK : List Nat :=
  [1116352408, 1899447441, 3049323471, 3921009573, 961987163, 1508970993,
   2453635748, 2870763221, 3624381080, 310598401, 607225278, 1426881987,
   1925078388, 2162078206, 2614888103, 3248222580, 3835390401, 4022224774,
   264347078, 604807628, 770255983, 1249150122, 1555081692, 1996064986,
   2554220882, 2821834349, 2952996808, 3210313671, 3336571891, 3584528711,
   113926993, 338241895, 666307205, 773529912, 1294757372, 1396182291,
   1695183700, 1986661051, 2177026350, 2456956037, 2730485921, 2820302411,
   3259730800, 3345764771, 3516065817, 3600352804, 4094571909, 275423344,
   430227734, 506948616, 659060556, 883997877, 958139571, 1322822218,
   1537002063, 1747873779, 1955562222, 2024104815, 2227730452, 2361852424,
   2428436474, 2756734187, 3204031479, 3329325298]

/-- The SHA-256 initial hash value (FIPS 180-4 §5.3.3, written in
decimal). -/
def shaH0 : List Nat :=
  [1779033703, 3144134277, 1013904242, 2773480762,
   1359893119, 2600822924, 528734635, 1541459225]

/-- Big-endian 8-byte encoding of a (64-bit) natural number. -/
def be64 (n : Nat) : List Nat :=
  [(n >>> 56) % 256, (n >>> 48) % 256, (n >>> 40) % 256, (n >>> 32) % 256,
   (n >>> 24) % 256, (n >>> 16) % 256, (n >>> 8) % 256, n % 256]

/-- SHA-256 message padding: append `0x80`, then zeros up to 56 mod 64 bytes,
then the big-endian 64-bit bit length. -/
def shaPad (msg : List Nat) : List Nat :=
  let L := msg.length
  let k := (119 - L % 64) % 64
  msg ++ (0x80 :: List.replicate k 0) ++ be64 (8 * L)

/-- Big-endian 32-bit word at word-index `i` of a 64-byte block. -/
def blockWord (block : List Nat) (i : Nat) : Nat :=
  block.getD (4 * i) 0 <<< 24 ||| block.getD (4 * i + 1) 0 <<< 16 |||
  block.getD (4 * i + 2) 0 <<< 8 ||| block.getD (4 * i + 3) 0

/-- Message-schedule extension step: the next word from the last 16. -/
def nextScheduleWord (ws : List Nat) : Nat :=
  let n := ws.length
  add32 (add32 (smallSigma1 (ws.getD (n - 2) 0)) (ws.getD (n - 7) 0))
        (add32 (smallSigma0 (ws.getD (n - 15) 0)) (ws.getD (n - 16) 0))

/-- Full 64-word message schedule of one block. -/
def schedule (block : List Nat) : List Nat :=
  (List.range 48).foldl (fun ws _ => ws ++ [nextScheduleWord ws])
    ((List.range 16).map (blockWord block))

/-- The eight working registers of the compression function. -/
structure Regs where
  a : Nat
  b : Nat
  c : Nat
  d : Nat
  e : Nat
  f : Nat
  g : Nat
  h : Nat

/-- One compression round. -/
def shaRound (k w : Nat) (r : Regs) : Regs :=
  let t1 := add32 r.h (add32 (bigSigma1 r.e) (add32 (shaCh r.e r.f r.g) (add32 k w)))
  let t2 := add32 (bigSigma0 r.a) (shaMaj r.a r.b r.c)
  ⟨add32 t1 t2, r.a, r.b, r.c, add32 r.d t1, r.e, r.f, r.g⟩

/-- Compress one 64-byte block into the running hash value (eight words). -/
def compressBlock (hs : List Nat) (block : List Nat) : List Nat :=
  let w := schedule block
  let r0 : Regs := ⟨hs.getD 0 0, hs.getD 1 0, hs.getD 2 0, hs.getD 3 0,
                    hs.getD 4 0, hs.getD 5 0, hs.getD 6 0, hs.getD 7 0⟩
  let r := (List.range 64).foldl (fun r t => shaRound (shaK.getD t 0) (w.getD t 0) r) r0
  [add32 (hs.getD 0 0) r.a, add32 (hs.getD 1 0) r.b, add32 (hs.getD 2 0) r.c,
   add32 (hs.getD 3 0) r.d, add32 (hs.getD 4 0) r.e, add32 (hs.getD 5 0) r.f,
   add32 (hs.getD 6 0) r.g, add32 (hs.getD 7 0) r.h]

/-- SHA-256 of a byte list: eight 32-bit hash words.  The padded message has
length a multiple of 64, so its blocks are enumerated by index. -/
def sha256Words (msg : List Nat) : List Nat :=
  let padded := shaPad msg
  let blocks := (List.range (padded.length / 64)).map
    (fun i => (padded.drop (64 * i)).take 64)
  blocks.foldl compressBlock shaH0

/-- Lowercase hex digit. -/
def hexDigit (n : Nat) : Char :=
  if n < 10 then Char.ofNat (48 + n) else Char.ofNat (87 + n)

/-- Eight-hex-digit rendering of a 32-bit word. -/
def wordToHex (x : Nat) : String :=
  String.mk ((List.range 8).map (fun i => hexDigit ((x >>> (28 - 4 * i)) &&& 15)))

/-- SHA-256 hex digest of a full byte content (64 lowercase hex characters). -/
def sha256Hex (msg : List Nat) : String :=
  String.join ((sha256Words msg).map wordToHex)

/-! ## Incremental hash object (model of `hashlib.sha256()` / `update` / `hexdigest`)

The state of a hash object is the sequence of bytes absorbed so far:
`update` appends, `hexdigest` digests the absorbed sequence.  This is the
documented semantics of `hashlib` (updating with `a` then `b` equals
updating with `a ++ b`). -/

/-- State of a fresh `hashlib.sha256()` object: nothing absorbed. -/
def sha256New : List Nat := []

/-- Model of `sha256_hash.update(byte_block)`: absorb the chunk. -/
def hashUpdate (s : List Nat) (chunk : List Nat) : List Nat := s ++ chunk

/-- Model of `sha256_hash.hexdigest()`. -/
def hashHexdigest (s : List Nat) : String := sha256Hex s

/-- Model of `iter(lambda: f.read(4096), b"")`: the successive 4096-byte
chunks of the file content, stopping at the first empty read. -/
def readChunks (content : List Nat) : List (List Nat) :=
  if content = [] then []
  else content.take 4096 :: readChunks (content.drop 4096)
termination_by content.length
decreasing_by
  simp only [List.length_drop]
  rename_i h
  have : 0 < content.length := List.length_pos.mpr h
  omega

/-- `VideoUploader.generate_file_hash` (main.py:215-226): stream the file in
4096-byte chunks through a SHA-256 object and return its hex digest. -/
def generate_file_hash (content : List Nat) : String :=
  hashHexdigest ((readChunks content).foldl hashUpdate sha256New)

/-! ## HTTP model (`requests` collaborator, §6 of the spec)

A run of an HTTP call is represented by the outcome the `requests` client
delivers: either the client raises before obtaining a response
(`.error`, e.g. a connection failure), or a final `HttpResp` arrives.
`Response.raise_for_status` raises `HTTPError` exactly for status codes in
[400, 600); `response.json()` either parses the body or raises
`JSONDecodeError` (a `RequestException` constructed without a `response`
keyword). -/

/-- A final HTTP response: status code plus the result of parsing its body as
JSON (`none` = the body is not valid JSON). -/
structure HttpResp (β : Type) where
  status : Nat
  jsonBody : Option β
  deriving DecidableEq

/-- `Response.raise_for_status` raises exactly for 4xx/5xx codes. -/
def raisesForStatus (status : Nat) : Bool := decide (400 ≤ status ∧ status < 600)

/-- Python exceptions that cross the boundaries modelled here.  Only a
`requests.RequestException` carries a `response` attribute (always set by its
constructor, possibly to `None`); it is modelled by the carried response's
status code.  `ValueError` and `AttributeError` have no such attribute. -/
inductive PyExn where
  | requestExc (response : Option Nat)
  | valueError (msg : String)
  | attributeError
  deriving DecidableEq

/-- Whether `e.response` is a real attribute of the exception (rather than an
access that itself raises `AttributeError`). -/
def hasResponseAttr : PyExn → Bool
  | .requestExc _ => true
  | _ => false

/-- Body schema of `GET /posts/generate-upload-url`: the code reads the keys
`url` and `hash` with `dict.get`, so each is optional. -/
structure UrlPayload where
  url : Option String
  hash : Option String
  deriving DecidableEq

/-- The JSON request body `{hash, file_size}` sent to the upload-url
endpoint. -/
structure UploadUrlRequest where
  hash : String
  file_size : Nat
  deriving DecidableEq

/-- The dictionary `get_upload_url` returns on success. -/
structure UploadInfo where
  upload_url : Option String
  hash : Option String
  deriving DecidableEq

/-- `VideoUploader.get_upload_url` (main.py:228-276): hash the file, send
`{hash, file_size}`, `raise_for_status`, parse the JSON body, and return
`{"upload_url": body.url, "hash": body.hash}`.  The `except
requests.RequestException` handler only logs before re-raising, so every
failure surfaces as an error: a client-level failure and a JSON parse
failure carry no response (`JSONDecodeError`/`ConnectionError` are built
without one); `raise_for_status`'s `HTTPError` carries the response.
`uploadUrlRequestOf` is the request body the method builds and sends. -/
def uploadUrlRequestOf (content : List Nat) : UploadUrlRequest :=
  ⟨generate_file_hash content, content.length⟩

def get_upload_url (content : List Nat)
    (env : UploadUrlRequest → Except Unit (HttpResp UrlPayload)) :
    Except PyExn UploadInfo :=
  match env (uploadUrlRequestOf content) with
  | .error _ => .error (.requestExc none)
  | .ok resp =>
    if raisesForStatus resp.status then
      .error (.requestExc (some resp.status))
    else
      match resp.jsonBody with
      | none => .error (.requestExc none)
      | some body => .ok ⟨body.url, body.hash⟩

/-- `VideoUploader.upload_video` (main.py:278-303): PUT the file's bytes to
the pre-signed URL.  `putOutcome` is what `requests.put` does: `.error r` =
it raised a `RequestException` (whose `response` attribute is `r`), `.ok s` =
a response with status `s` arrived.  Any raised `RequestException` — including
the `HTTPError` from `raise_for_status` — is caught and converted to `False`;
otherwise the method returns `True`. -/
def upload_video (putOutcome : Except (Option Nat) Nat) : Bool :=
  match putOutcome with
  | .error _ => false
  | .ok status => !raisesForStatus status

/-- The JSON body `{title, hash, is_available_in_public_feed, category_id}`
sent to `POST /posts`.  The `hash` value is `upload_info['hash']`, which may
be `None`. -/
structure PostRequest where
  title : String
  hash : Option String
  is_available_in_public_feed : Bool
  category_id : Nat
  deriving DecidableEq

/-- Body schema of the post-creation response; the code reads `id` with
`dict.get`. -/
structure PostPayload where
  id : Option Nat
  deriving DecidableEq

/-- `VideoUploader.create_post` (main.py:305-352): POST the payload with
visibility hard-coded to `False`, `raise_for_status`, parse and return the
JSON body.  Its `except requests.RequestException` handler logs and
re-raises, so failures propagate as in `get_upload_url`. -/
def create_post (file_hash : Option String) (title : String) (category_id : Nat)
    (env : PostRequest → Except Unit (HttpResp PostPayload)) :
    Except PyExn PostPayload :=
  let payload : PostRequest := ⟨title, file_hash, false, category_id⟩
  match env payload with
  | .error _ => .error (.requestExc none)
  | .ok resp =>
    if raisesForStatus resp.status then
      .error (.requestExc (some resp.status))
    else
      match resp.jsonBody with
      | none => .error (.requestExc none)
      | some body => .ok body

/-- The `except Exception as e` handler of `upload_video_to_socialverse`
(main.py:384-389): it logs, then unconditionally evaluates `e.response`.
When the caught exception has no `response` attribute that very access
raises, so the exception leaving the handler is an `AttributeError`;
otherwise the handler falls through to `raise` and re-raises the original
exception. -/
def outerHandler : PyExn → PyExn
  | .requestExc r => .requestExc r
  | _ => .attributeError

/-- Environment of one `upload_video_to_socialverse` call: the outcomes the
`requests` client delivers for the three HTTP operations of the run. -/
structure UploadEnv where
  getResp : UploadUrlRequest → Except Unit (HttpResp UrlPayload)
  putOutcome : Except (Option Nat) Nat
  postResp : PostRequest → Except Unit (HttpResp PostPayload)

/-- Observable outcome of one `upload_video_to_socialverse` call: what the
call does (return a post record or raise), and whether `create_post` was
invoked during it. -/
structure PublishResult where
  result : Except PyExn PostPayload
  createPostInvoked : Bool

/-- `VideoUploader.upload_video_to_socialverse` (main.py:354-389):
`get_upload_url`, then `upload_video`; if the latter returns `False`, raise
`ValueError("Video upload failed")`; otherwise `create_post`.  Every
exception reaching the method's own handler passes through `outerHandler`
before propagating. -/
def upload_video_to_socialverse (env : UploadEnv) (content : List Nat)
    (title : String) (category_id : Nat) : PublishResult :=
  match get_upload_url content env.getResp with
  | .error e => ⟨.error (outerHandler e), false⟩
  | .ok info =>
    if upload_video env.putOutcome then
      match create_post info.hash title category_id env.postResp with
      | .error e => ⟨.error (outerHandler e), true⟩
      | .ok post => ⟨.ok post, true⟩
    else
      ⟨.error (outerHandler (.valueError "Video upload failed")), false⟩

/-! ## Orchestrator: the upload phase of `main` (main.py:434-453)

One `try` block wraps the entire `for video_path in downloaded_files` loop,
so the first publish call that raises transfers control to the `except`
(which only logs) and ends the loop.  `os.remove(video_path)` runs directly
after a publish call that returned normally. -/

/-- Whether an `Except` value is a normal return. -/
def exceptIsOk {ε α : Type} : Except ε α → Bool
  | .ok _ => true
  | .error _ => false

/-- Per-run environment of the orchestrator's upload phase: the HTTP outcomes
of each file's publish call and each local file's byte content. -/
structure OrchUploadEnv where
  publishEnv : String → UploadEnv
  contentOf : String → List Nat

/-- Whether the publish call the orchestrator makes for file `p` — with the
title `f"Instagram Reel: {SEARCH_KEYWORD}"` and category 25 of
main.py:442-446 — returns normally (as opposed to raising). -/
def publishOk (env : OrchUploadEnv) (keyword : String) (p : String) : Bool :=
  exceptIsOk (upload_video_to_socialverse (env.publishEnv p) (env.contentOf p)
    (s!"Instagram Reel: {keyword}") 25).result

/-- The upload loop of `main`: processes `downloaded_files` in order, deleting
each file right after its publish returns; the first publish that raises ends
the loop (the `except` is outside the `for`).  Returns the list of files for
which a publish call was made (attempted) and the list of files removed. -/
def uploadPhase (env : OrchUploadEnv) (keyword : String) :
    List String → List String × List String
  | [] => ([], [])
  | p :: rest =>
    if publishOk env keyword p then
      (p :: (uploadPhase env keyword rest).1, p :: (uploadPhase env keyword rest).2)
    else
      ([p], [])

/-! ## Orchestrator: the discovery+download retry loop of `main` (main.py:404-424)

`for attempt in range(3)` wraps one `try` per attempt.  A successful call to
`download_videos` assigns `downloaded_files`; a non-empty result `break`s, an
empty one only logs a warning and continues — with **no** sleep.  Only the
`except` branch (the attempt raised) sleeps, for 3 seconds, before the next
iteration.  One attempt's observable behaviour is recorded per iteration. -/

/-- What one `download_videos(...)` attempt did: returned a list of paths, or
raised. -/
inductive AttemptOutcome where
  | ok (files : List String)
  | exn
  deriving DecidableEq

/-- Record of one loop iteration: its index, its outcome, and whether the
3-second backoff sleep ran after it. -/
structure AttemptRec where
  idx : Nat
  outcome : AttemptOutcome
  sleptAfter : Bool
  deriving DecidableEq

/-- The retry loop body: `fuel` iterations remain, `i` is the current attempt
index, `files` the current value of `downloaded_files`.  Returns the trace of
iterations run and the final value of `downloaded_files`. -/
def retryGo (env : Nat → AttemptOutcome) :
    Nat → Nat → List String → List AttemptRec × List String
  | 0, _, files => ([], files)
  | fuel + 1, i, files =>
    match env i with
    | .ok fs =>
      if fs.isEmpty then
        (⟨i, .ok fs, false⟩ :: (retryGo env fuel (i + 1) fs).1,
         (retryGo env fuel (i + 1) fs).2)
      else
        ([⟨i, .ok fs, false⟩], fs)
    | .exn =>
      (⟨i, .exn, true⟩ :: (retryGo env fuel (i + 1) files).1,
       (retryGo env fuel (i + 1) files).2)

/-- The whole retry phase: `max_retries = 3`, starting from attempt 0 with
`downloaded_files = []`. -/
def retryPhase (env : Nat → AttemptOutcome) : List AttemptRec × List String :=
  retryGo env 3 0 []

/-- The iteration trace of the retry phase. -/
def retryRecords (env : Nat → AttemptOutcome) : List AttemptRec :=
  (retryPhase env).1

/-- How many discovery+download attempts were made. -/
def numAttempts (env : Nat → AttemptOutcome) : Nat :=
  (retryRecords env).length

/-! ## Downloader (`VideoDownloader`, main.py:26-189)

The filesystem is the single download directory, modelled as the list of its
entries in `os.listdir` order; a file created by the instaloader collaborator
is appended (creation order is one concrete realisation of the unspecified
listing order).  Each entry records its name, its byte size, and the
shortcode of the post whose bytes it holds. -/

/-- One entry of the download directory. -/
structure FsFile where
  name : String
  size : Nat
  src : String
  deriving DecidableEq

/-- Whether `pat` occurs as a contiguous run at the head of `l`. -/
def seqIsPrefixOf : List Char → List Char → Bool
  | [], _ => true
  | _ :: _, [] => false
  | a :: as, b :: bs => a = b && seqIsPrefixOf as bs

/-- Whether `pat` occurs as a contiguous run anywhere in `l` (Python's
`pat in s` on strings). -/
def containsSeq (pat : List Char) : List Char → Bool
  | [] => seqIsPrefixOf pat []
  | b :: bs => seqIsPrefixOf pat (b :: bs) || containsSeq pat bs

/-- Python's `s.split(c)` on the character list of `s`: maximal runs between
occurrences of `c`, keeping empty runs (`"".split('/') = [""]`,
`"/".split('/') = ["", ""]`). -/
def splitOnChar (c : Char) : List Char → List (List Char)
  | [] => [[]]
  | x :: xs =>
    let r := splitOnChar c xs
    if x = c then [] :: r
    else
      match r with
      | [] => [[x]]
      | h :: t => (x :: h) :: t

/-- Python's `video_url.split('/')`. -/
def pySplit (c : Char) (s : String) : List String :=
  (splitOnChar c s.toList).map String.mk

/-- Python's `s.endswith(suf)`. -/
def pyEndsWith (s suf : String) : Bool :=
  seqIsPrefixOf suf.toList.reverse s.toList.reverse

/-- Python's `parts[-2]`: the second-to-last element, absent (an `IndexError`)
when the list has fewer than two elements. -/
def pyPenultimate (parts : List String) : Option String :=
  if parts.length < 2 then none else parts.get? (parts.length - 2)

/-- The shortcode-extraction step of `download_video` (main.py:127-131):
`video_url.split('/')[-2] if '/reel/' in video_url else None`, after which a
falsy shortcode (`None` or the empty string) makes the method return `None`.
An `IndexError` from the subscript would be caught by the method's outer
handler, which also returns `None`, so it too maps to `none`. -/
def extract_shortcode (video_url : String) : Option String :=
  if containsSeq "/reel/".toList video_url.toList then
    match pyPenultimate (pySplit '/' video_url) with
    | none => none
    | some s => if s = "" then none else some s
  else none

/-- `os.rename old new` inside one directory: any distinct entry already named
`new` is overwritten, and the entry named `old` now bears the name `new`. -/
def renameFile (fs : List FsFile) (old new : String) : List FsFile :=
  (fs.filter (fun f => f.name != new || f.name == old)).map
    (fun f => if f.name == old then { f with name := new } else f)

/-- `os.path.exists full_path and os.path.getsize full_path > 0` in the
directory model. -/
def fileExistsWithSize (fs : List FsFile) (n : String) : Bool :=
  fs.any (fun f => f.name == n && decide (0 < f.size))

/-- Environment of the downloader: `fetch sc` is what
`instaloader.Post.from_shortcode` + `download_post` do for shortcode `sc`
(`none` = raised; `some f` = wrote exactly one file `f`, per the
collaborator's contract in §6); `search` is what the selenium session
delivers (`none` = some step raised; `some hrefs` = the anchor elements
found, each with its `href` attribute, `none` for an element whose attribute
read failed or returned null). -/
structure DlEnv where
  fetch : String → Option FsFile
  search : Option (List (Option String))

/-- `VideoDownloader.download_video` (main.py:117-164): extract the
shortcode (falsy → `None`), let the collaborator download the post into the
shared directory, then rename the **first** file of the directory listing
whose name ends in `.mp4` to `instagram_video_{index}_{shortcode}.mp4`, and
return the joined path if that target now exists with positive size.
Returns the result together with the directory contents it leaves behind. -/
def download_video (env : DlEnv) (download_path : String) (fs : List FsFile)
    (video_url : String) (index : Nat) : Option String × List FsFile :=
  match extract_shortcode video_url with
  | none => (none, fs)
  | some shortcode =>
    let sanitized := s!"instagram_video_{index}_{shortcode}.mp4"
    match env.fetch shortcode with
    | none => (none, fs)
    | some newFile =>
      let fs1 := fs ++ [newFile]
      let fs2 :=
        match fs1.find? (fun f => pyEndsWith f.name ".mp4") with
        | some f => renameFile fs1 f.name sanitized
        | none => fs1
      if fileExistsWithSize fs2 sanitized then
        (some (download_path ++ "/" ++ sanitized), fs2)
      else
        (none, fs2)

/-- The link-collection loop of `find_video_links` (main.py:97-109): keep
every href that is truthy and contains `/reel/`, in the order the search
surface returned them, and break as soon as `max_videos` links are
collected (the check runs after each append). -/
def collectReelLinks (max_videos : Nat) :
    List (Option String) → List String → List String
  | [], acc => acc
  | h :: rest, acc =>
    match h with
    | none => collectReelLinks max_videos rest acc
    | some href =>
      if href = "" then collectReelLinks max_videos rest acc
      else if containsSeq "/reel/".toList href.toList then
        let acc1 := acc ++ [href]
        if max_videos ≤ acc1.length then acc1
        else collectReelLinks max_videos rest acc1
      else collectReelLinks max_videos rest acc

/-- `VideoDownloader.find_video_links` (main.py:64-115): any failure of the
search surface yields `[]`; otherwise the filtered, capped link list. -/
def find_video_links (env : DlEnv) (max_videos : Nat) : List String :=
  match env.search with
  | none => []
  | some hrefs => collectReelLinks max_videos hrefs []

/-- The fan-out of `download_videos` over the enumerated links.  The
coroutine bodies of `download_video` contain no `await`, so under asyncio's
cooperative scheduler each task started by `asyncio.gather` runs atomically
to completion in task order; the fan-out is therefore a sequential fold that
threads the shared download directory, with results in task order. -/
def runFetches (env : DlEnv) (download_path : String) :
    List (Nat × String) → List FsFile → List (Option String) × List FsFile
  | [], fs => ([], fs)
  | (i, url) :: rest, fs =>
    let (r, fs1) := download_video env download_path fs url i
    let (rs, fs2) := runFetches env download_path rest fs1
    (r :: rs, fs2)

/-- `VideoDownloader.download_videos` (main.py:166-189): discover links,
fetch each with 1-based indices in discovery order, and drop the `None`
results. -/
def download_videos (env : DlEnv) (download_path : String) (fs : List FsFile)
    (max_videos : Nat) : List String × List FsFile :=
  let links := find_video_links env max_videos
  let (results, fs2) := runFetches env download_path (List.enumFrom 1 links) fs
  (results.filterMap id, fs2)

/-! ## Derived observations and concrete environments

Abbreviations read off the embedded code (used to state the claims), and the
concrete collaborator behaviours at which counterexamples and witnesses are
evaluated. -/

/-- Whether one attempt's outcome makes the retry loop `break`: a returned
non-empty list does, an empty list or a raised exception does not. -/
def attemptBreaks : AttemptOutcome → Bool
  | .ok fs => !fs.isEmpty
  | .exn => false

/-- Whether the attempt raised. -/
def attemptRaised : AttemptOutcome → Bool
  | .ok _ => false
  | .exn => true

/-- Whether the 3-second backoff sleep ran after attempt `k` of the retry
phase. -/
def sleptAfterAttempt (env : Nat → AttemptOutcome) (k : Nat) : Bool :=
  ((retryRecords env).getD k ⟨0, .exn, false⟩).sleptAfter

/-- A run in which all three HTTP operations succeed with well-formed
bodies. -/
def okUploadEnv : UploadEnv where
  getResp := fun _ => .ok ⟨200, some ⟨some "u", some "h"⟩⟩
  putOutcome := .ok 200
  postResp := fun _ => .ok ⟨200, some ⟨some 7⟩⟩

/-- A run in which slot negotiation succeeds but the transfer PUT comes back
500, so `upload_video` returns `False`. -/
def failUploadEnv : UploadEnv where
  getResp := fun _ => .ok ⟨200, some ⟨some "u", some "h"⟩⟩
  putOutcome := .ok 500
  postResp := fun _ => .ok ⟨200, some ⟨some 7⟩⟩

/-- An orchestrator upload environment in which publishing file `"a"` fails
(transfer 500) and publishing any other file succeeds. -/
def orchEnvAB : OrchUploadEnv where
  publishEnv := fun p => if p = "a" then failUploadEnv else okUploadEnv
  contentOf := fun _ => [1, 2, 3]

/-- Discovery yields two reel links; the instaloader collaborator succeeds on
every shortcode `sc`, writing the one file `{sc}_dl.mp4` of size 1 holding
post `sc`'s bytes. -/
def stealEnv : DlEnv where
  fetch := fun sc => some ⟨sc ++ "_dl.mp4", 1, sc⟩
  search := some [some "https://www.instagram.com/reel/AAA/",
                  some "https://www.instagram.com/reel/BBB/"]

/-- Attempts 0 and 1 return empty lists, attempt 2 returns a non-empty
list. -/
def envEmptyEmptyHit : Nat → AttemptOutcome :=
  fun i => .ok (if i < 2 then [] else ["video.mp4"])

/-- Attempt 0 returns an empty list (without raising), attempt 1 returns a
non-empty list. -/
def envEmptyThenHit : Nat → AttemptOutcome :=
  fun i => .ok (if i = 0 then [] else ["video.mp4"])

/-- Attempt 0 raises, attempt 1 returns a non-empty list. -/
def envExnThenHit : Nat → AttemptOutcome :=
  fun i => if i = 0 then .exn else .ok ["video.mp4"]

/-! ## Helper lemmas -/

/-- Folding `update` over chunks absorbs their concatenation. -/
theorem foldl_hashUpdate (chunks : List (List Nat)) (acc : List Nat) :
    chunks.foldl hashUpdate acc = acc ++ chunks.flatten := by
  induction chunks generalizing acc with
  | nil => simp
  | cons c cs ih => simp [hashUpdate, ih]

/-- The 4096-byte chunks of a file concatenate back to its content. -/
theorem readChunks_join (l : List Nat) : (readChunks l).flatten = l := by
  by_cases h : l = []
  · simp [readChunks, h]
  · rw [readChunks, if_neg h, List.flatten_cons, readChunks_join (l.drop 4096),
      List.take_append_drop]
termination_by l.length
decreasing_by
  simp only [List.length_drop]
  have : 0 < l.length := List.length_pos.mpr h
  omega

/-! ## Claims -/

/-- Claim C8: the content fingerprint is deterministic and chunk-boundary
independent — absorbing any chunking of the content (in particular the
4096-byte chunking `generate_file_hash` streams) into the SHA-256 object
yields the SHA-256 digest of the full byte content. -/
theorem generate_file_hash_chunk_independent (content : List Nat)
    (chunks : List (List Nat)) (hchunks : chunks.flatten = content) :
    hashHexdigest (chunks.foldl hashUpdate sha256New) = sha256Hex content ∧
    generate_file_hash content = sha256Hex content := by
  constructor
  · simp [hashHexdigest, foldl_hashUpdate, sha256New, hchunks]
  · simp [generate_file_hash, hashHexdigest, foldl_hashUpdate, sha256New,
      readChunks_join]

/-- Witness for C8 at content `[1, 2, 3]` chunked as `[[1], [2, 3]]`. -/
theorem generate_file_hash_chunk_independent_witness :
    ([[1], [2, 3]] : List (List Nat)).flatten = [1, 2, 3] ∧
    (hashHexdigest ([[1], [2, 3]].foldl hashUpdate sha256New) = sha256Hex [1, 2, 3] ∧
     generate_file_hash [1, 2, 3] = sha256Hex [1, 2, 3]) :=
  ⟨by decide, generate_file_hash_chunk_independent [1, 2, 3] [[1], [2, 3]] (by decide)⟩

/-- Claim C6: a candidate link from which no shortcode is extractable (the
extraction of main.py:127-131 yields nothing) makes `download_video` return
absent, produce no media, and leave the directory untouched. -/
theorem unextractable_shortcode_returns_absent (env : DlEnv)
    (download_path : String) (fs : List FsFile) (video_url : String)
    (index : Nat) (h : extract_shortcode video_url = none) :
    download_video env download_path fs video_url index = (none, fs) := by
  simp [download_video, h]

/-- Witness for C6 at a reel URL with an empty shortcode segment. -/
theorem unextractable_shortcode_returns_absent_witness :
    extract_shortcode "https://www.instagram.com/reel//" = none ∧
    download_video stealEnv "instagram_videos" []
      "https://www.instagram.com/reel//" 1 = (none, []) :=
  ⟨by decide,
   unextractable_shortcode_returns_absent stealEnv "instagram_videos" []
     "https://www.instagram.com/reel//" 1 (by decide)⟩

/-- Claim C1: `upload_video_to_socialverse` is atomic on transfer failure —
whenever the slot-negotiation step returned and the transfer step
(`upload_video`) did not succeed, `create_post` is never invoked, no post
record is produced, and the call raises instead of returning. -/
theorem publish_atomic_on_transfer_failure (env : UploadEnv) (content : List Nat)
    (title : String) (category_id : Nat) (info : UploadInfo)
    (hget : get_upload_url content env.getResp = .ok info)
    (hput : upload_video env.putOutcome = false) :
    (upload_video_to_socialverse env content title category_id).createPostInvoked
      = false ∧
    ∃ e, (upload_video_to_socialverse env content title category_id).result
      = .error e := by
  unfold upload_video_to_socialverse
  rw [hget, hput]
  exact ⟨rfl, ⟨_, rfl⟩⟩

/-- Witness for C1: slot negotiation succeeds, the transfer PUT returns 500. -/
theorem publish_atomic_on_transfer_failure_witness :
    (upload_video_to_socialverse failUploadEnv [1, 2, 3] "t" 25).createPostInvoked
      = false ∧
    ∃ e, (upload_video_to_socialverse failUploadEnv [1, 2, 3] "t" 25).result
      = .error e :=
  publish_atomic_on_transfer_failure failUploadEnv [1, 2, 3] "t" 25
    ⟨some "u", some "h"⟩ (by rfl) (by rfl)

/-- Claim C9: when the transfer step fails, the exception
`upload_video_to_socialverse` propagates is not the `ValueError` describing
the failure but the `AttributeError` raised by the handler's unconditional
`e.response` access; in general the handler replaces every caught exception
lacking a `response` attribute by an `AttributeError`. -/
theorem transfer_failure_surfaces_attribute_error (env : UploadEnv)
    (content : List Nat) (title : String) (category_id : Nat) (info : UploadInfo)
    (hget : get_upload_url content env.getResp = .ok info)
    (hput : upload_video env.putOutcome = false) :
    (upload_video_to_socialverse env content title category_id).result
      = .error .attributeError ∧
    (upload_video_to_socialverse env content title category_id).result
      ≠ .error (.valueError "Video upload failed") ∧
    ∀ e, hasResponseAttr e = false → outerHandler e = .attributeError := by
  have h1 : (upload_video_to_socialverse env content title category_id).result
      = .error .attributeError := by
    unfold upload_video_to_socialverse
    rw [hget, hput]
    rfl
  refine ⟨h1, by simp [h1], ?_⟩
  intro e he
  cases e <;> simp_all [hasResponseAttr, outerHandler]

/-- Witness for C9: with the 500 transfer run, the caller observes an
`AttributeError`, and the handler turns a `ValueError` into one. -/
theorem transfer_failure_surfaces_attribute_error_witness :
    (upload_video_to_socialverse failUploadEnv [1, 2, 3] "t" 25).result
      = .error .attributeError ∧
    outerHandler (.valueError "x") = .attributeError :=
  have h := transfer_failure_surfaces_attribute_error failUploadEnv [1, 2, 3]
    "t" 25 ⟨some "u", some "h"⟩ (by rfl) (by rfl)
  ⟨h.1, h.2.2 (.valueError "x") (by rfl)⟩

/-- The retry loop runs at most `fuel` iterations. -/
theorem retryGo_len_le (env : Nat → AttemptOutcome) (fuel : Nat) :
    ∀ (i : Nat) (files : List String),
      ((retryGo env fuel i files).1).length ≤ fuel := by
  induction fuel with
  | zero => intro i files; simp [retryGo]
  | succ n ih =>
    intro i files
    simp only [retryGo]
    cases env i with
    | ok fs =>
      by_cases he : fs.isEmpty
      · simpa [he] using ih (i + 1) fs
      · simp [he]
    | exn => simpa using ih (i + 1) files

/-- If attempt `i + k` breaks the loop and no earlier remaining attempt
does, the loop starting at attempt `i` runs exactly `k + 1` iterations. -/
theorem retryGo_break_len (env : Nat → AttemptOutcome) (fuel : Nat) :
    ∀ (i : Nat) (files : List String) (k : Nat), k < fuel →
      attemptBreaks (env (i + k)) = true →
      (∀ j, j < k → attemptBreaks (env (i + j)) = false) →
      ((retryGo env fuel i files).1).length = k + 1 := by
  induction fuel with
  | zero => intro i files k hk; omega
  | succ n ih =>
    intro i files k hk hbr hprev
    cases k with
    | zero =>
      rw [Nat.add_zero] at hbr
      simp only [retryGo]
      cases h : env i with
      | ok fs =>
        have he : fs.isEmpty = false := by
          rw [h] at hbr; simpa [attemptBreaks] using hbr
        simp [he]
      | exn => rw [h] at hbr; simp [attemptBreaks] at hbr
    | succ m =>
      have h0 : attemptBreaks (env i) = false := by
        simpa using hprev 0 (Nat.succ_pos m)
      have hshift : i + 1 + m = i + (m + 1) := by omega
      have hbr' : attemptBreaks (env (i + 1 + m)) = true := by
        rw [hshift]; exact hbr
      have hprev' : ∀ j, j < m → attemptBreaks (env (i + 1 + j)) = false := by
        intro j hj
        have : i + 1 + j = i + (j + 1) := by omega
        rw [this]; exact hprev (j + 1) (by omega)
      simp only [retryGo]
      cases h : env i with
      | ok fs =>
        have he : fs.isEmpty = true := by
          rw [h] at h0; simpa [attemptBreaks] using h0
        simpa [he] using ih (i + 1) fs m (by omega) hbr' hprev'
      | exn =>
        simpa using ih (i + 1) files m (by omega) hbr' hprev'

/-- Each record of the retry trace documents its own attempt: index, the
attempt's outcome, and a backoff sleep exactly when the attempt raised. -/
theorem retryGo_getD (env : Nat → AttemptOutcome) (fuel : Nat) :
    ∀ (i : Nat) (files : List String) (k : Nat),
      k < ((retryGo env fuel i files).1).length →
      ((retryGo env fuel i files).1).getD k ⟨0, .exn, false⟩ =
        ⟨i + k, env (i + k), attemptRaised (env (i + k))⟩ := by
  induction fuel with
  | zero => intro i files k hk; simp [retryGo] at hk
  | succ n ih =>
    intro i files k hk
    simp only [retryGo] at hk ⊢
    cases h : env i with
    | ok fs =>
      rw [h] at hk
      by_cases he : fs.isEmpty
      · simp only [he, if_true] at hk ⊢
        cases k with
        | zero => simp [h, attemptRaised]
        | succ m =>
          simp only [List.getD_cons_succ]
          have : i + 1 + m = i + (m + 1) := by omega
          rw [ih (i + 1) fs m (by simpa using hk), this]
      · simp only [he, if_false] at hk ⊢
        have hk0 : k = 0 := by simp at hk; omega
        subst hk0
        simp [h, attemptRaised]
    | exn =>
      rw [h] at hk
      cases k with
      | zero => simp [h, attemptRaised]
      | succ m =>
        simp only [List.getD_cons_succ]
        have : i + 1 + m = i + (m + 1) := by omega
        rw [ih (i + 1) files m (by simpa using hk), this]

/-- Claim C3: the orchestrator's retry loop makes at most 3
discovery+download attempts and stops as soon as one attempt breaks it by
returning a non-empty list; with attempts 0 and 1 empty and attempt 2
non-empty, exactly 3 attempts occur. -/
theorem retry_attempts_bound_and_early_stop :
    (∀ env, numAttempts env ≤ 3) ∧
    (∀ env i, i < 3 → attemptBreaks (env i) = true →
      (∀ j, j < i → attemptBreaks (env j) = false) →
      numAttempts env = i + 1) ∧
    numAttempts envEmptyEmptyHit = 3 := by
  refine ⟨fun env => retryGo_len_le env 3 0 [], ?_, by rfl⟩
  intro env i hi hbr hprev
  have := retryGo_break_len env 3 0 [] i hi (by simpa using hbr)
    (fun j hj => by simpa using hprev j hj)
  simpa [numAttempts, retryRecords, retryPhase] using this

/-- Witness for C3: the empty-empty-nonempty discovery environment makes
exactly 3 attempts. -/
theorem retry_attempts_bound_and_early_stop_witness :
    numAttempts envEmptyEmptyHit = 3 :=
  retry_attempts_bound_and_early_stop.2.1 envEmptyEmptyHit 2 (by decide)
    (by decide) (by decide)

/-- Counterexample for C4: attempt 0 returns an empty list without raising
and attempt 1 follows it, yet no backoff sleep is performed between the
two — the `asyncio.sleep(3)` of main.py:424 sits only in the `except`
branch, which an empty (non-raising) attempt never enters. -/
theorem retry_no_sleep_after_empty_counterexample :
    retryRecords envEmptyThenHit =
      [⟨0, .ok [], false⟩, ⟨1, .ok ["video.mp4"], false⟩] ∧
    attemptBreaks (envEmptyThenHit 0) = false ∧
    sleptAfterAttempt envEmptyThenHit 0 = false ∧
    numAttempts envEmptyThenHit = 2 :=
  ⟨rfl, rfl, rfl, rfl⟩

/-- Claim C4 as amended: the fixed 3-second backoff sleep runs after an
attempt exactly when that attempt raised an exception; an attempt that
merely returns an empty result is followed immediately by the next attempt
with no sleep. -/
theorem retry_sleep_only_after_exception (env : Nat → AttemptOutcome)
    (k : Nat) (hk : k < numAttempts env) :
    sleptAfterAttempt env k = attemptRaised (env k) := by
  have h := retryGo_getD env 3 0 [] k
    (by simpa [numAttempts, retryRecords, retryPhase] using hk)
  simp only [sleptAfterAttempt, retryRecords, retryPhase] at *
  rw [h]
  simp

/-- Witness for C4's amended claim: attempt 0 raises, and the sleep runs
after it. -/
theorem retry_sleep_only_after_exception_witness :
    sleptAfterAttempt envExnThenHit 0 = attemptRaised (envExnThenHit 0) :=
  retry_sleep_only_after_exception envExnThenHit 0 (by decide)

/-- Counterexample for C2: with the publish call for `"a"` failing and the
one for `"b"` succeeding, processing `["a", "b"]` attempts only `"a"` —
the failure aborts the loop (the `try` of main.py:438 wraps the whole
`for`), so `"b"` is never attempted even though its publish would
succeed, and nothing is deleted. -/
theorem upload_failure_halts_remaining_counterexample :
    (uploadPhase orchEnvAB "kw" ["a", "b"]).1 = ["a"] ∧
    (uploadPhase orchEnvAB "kw" ["a", "b"]).2 = [] ∧
    publishOk orchEnvAB "kw" "b" = true ∧
    ((uploadPhase orchEnvAB "kw" ["a", "b"]).1.contains "b") = false :=
  ⟨rfl, rfl, rfl, rfl⟩

/-- Claim C2 as amended: files are processed in order until the first
publish failure — every file whose publish succeeds is deleted right after
its own publish call, the first failing file is attempted but not deleted,
and no later file is attempted; in particular a file is deleted only if its
own publish call succeeded. -/
theorem upload_loop_deletion_and_halt (env : OrchUploadEnv) (keyword : String)
    (files : List String) :
    (uploadPhase env keyword files).2 =
      files.takeWhile (publishOk env keyword) ∧
    (uploadPhase env keyword files).1 =
      files.takeWhile (publishOk env keyword) ++
        (files.dropWhile (publishOk env keyword)).take 1 ∧
    ∀ p, p ∈ (uploadPhase env keyword files).2 →
      publishOk env keyword p = true := by
  induction files with
  | nil => simp [uploadPhase]
  | cons p rest ih =>
    by_cases h : publishOk env keyword p
    · simp only [uploadPhase, h, if_true, List.takeWhile_cons, List.dropWhile_cons]
      refine ⟨by simp [ih.1], by simp [ih.2.1], ?_⟩
      intro q hq
      rcases List.mem_cons.mp hq with hq | hq
      · exact hq ▸ h
      · exact ih.2.2 q hq
    · simp only [uploadPhase, h, if_false, List.takeWhile_cons, List.dropWhile_cons]
      simp [h]

/-- Witness for C2's amended claim: `"b"` is deleted in a run where its
publish succeeds. -/
theorem upload_loop_deletion_and_halt_witness :
    publishOk orchEnvAB "kw" "b" = true :=
  (upload_loop_deletion_and_halt orchEnvAB "kw" ["b"]).2.2 "b" (by decide)

/-- Counterexample for C7: a final response with the non-2xx status 300 and
a parseable payload makes `get_upload_url` return normally —
`raise_for_status` raises only for 4xx/5xx, so "non-2xx" is not the
failure condition. -/
theorem get_upload_url_non2xx_counterexample :
    get_upload_url [1, 2, 3] (fun _ => .ok ⟨300, some ⟨some "u", some "h"⟩⟩)
      = .ok ⟨some "u", some "h"⟩ ∧
    decide (200 ≤ 300 ∧ 300 < 300) = false :=
  ⟨rfl, rfl⟩

/-- Claim C7 as amended: `get_upload_url` raises a propagated error rather
than returning exactly when the request itself fails, the response status
is 4xx/5xx (the statuses `raise_for_status` raises for), or the payload is
not parseable JSON; a 1xx/3xx final response with parseable payload is
returned as success. -/
theorem get_upload_url_error_characterization (content : List Nat)
    (env : UploadUrlRequest → Except Unit (HttpResp UrlPayload)) :
    (∃ e, get_upload_url content env = .error e) ↔
      (env (uploadUrlRequestOf content) = .error () ∨
       ∃ resp, env (uploadUrlRequestOf content) = .ok resp ∧
         (raisesForStatus resp.status = true ∨ resp.jsonBody = none)) := by
  unfold get_upload_url
  cases h : env (uploadUrlRequestOf content) with
  | error u => cases u; simp
  | ok resp =>
    by_cases hs : raisesForStatus resp.status
    · simp [hs]
    · cases hb : resp.jsonBody with
      | none => simp [hs, hb]
      | some body => simp [hs, hb]

/-- Witness for C7's amended claim: a 404 response makes `get_upload_url`
propagate an error. -/
theorem get_upload_url_error_characterization_witness :
    ∃ e, get_upload_url [1] (fun _ => .ok ⟨404, none⟩) = .error e :=
  (get_upload_url_error_characterization [1] (fun _ => .ok ⟨404, none⟩)).mpr
    (Or.inr ⟨⟨404, none⟩, rfl, Or.inl rfl⟩)

/-- Claim C5, exhibited as a code bug: in a run where discovery returns two
valid reel links and both fetches succeed, `download_videos` returns both
paths in index order — but the second fetch's rename step picks the first
`.mp4` of the shared directory listing, which is the *first* fetch's
output, so the first returned path no longer names an existing file when
`download_videos` returns.  This violates the DownloadedMedia invariant
(every returned `local_path` exists with size > 0). -/
theorem download_result_names_missing_file :
    (download_videos stealEnv "instagram_videos" [] 5).1 =
      ["instagram_videos/instagram_video_1_AAA.mp4",
       "instagram_videos/instagram_video_2_BBB.mp4"] ∧
    (download_videos stealEnv "instagram_videos" [] 5).2 =
      [⟨"instagram_video_2_BBB.mp4", 1, "AAA"⟩, ⟨"BBB_dl.mp4", 1, "BBB"⟩] ∧
    fileExistsWithSize (download_videos stealEnv "instagram_videos" [] 5).2
      "instagram_video_1_AAA.mp4" = false :=
  ⟨rfl, rfl, rfl⟩

/-- Claim C10: the rename step of `download_video` renames whichever file
ending in `.mp4` appears first in the shared directory's listing,
regardless of whether the current fetch produced it: fetching shortcode
`"BBB"` into a directory already holding the first fetch's
`instagram_video_1_AAA.mp4` renames *that* file, so the returned path for
the `"BBB"` link names a file holding post `"AAA"`'s bytes, while the
collaborator's fresh `BBB_dl.mp4` is left behind unrenamed. -/
theorem rename_steals_previous_download :
    extract_shortcode "https://www.instagram.com/reel/BBB/" = some "BBB" ∧
    (download_videos stealEnv "instagram_videos" [] 5).1.getD 1 "" =
      "instagram_videos/instagram_video_2_BBB.mp4" ∧
    (download_videos stealEnv "instagram_videos" [] 5).2.find?
        (fun f => f.name == "instagram_video_2_BBB.mp4") =
      some ⟨"instagram_video_2_BBB.mp4", 1, "AAA"⟩ ∧
    (("AAA" : String) == "BBB") = false :=
  ⟨rfl, rfl, rfl, rfl⟩

end VideoBot
